import Mathlib

/-!
Verification development for the jinja2-django-tags tag-extension engine
(`jdj_tags/extensions.py`).  The parsing routines operate on the host
(jinja2) token stream; here the stream is embedded as a `List Tok` (the
empty list standing for the end-of-stream position), and each parsing
routine of the source becomes a Lean function from a token list to an
`Except` value carrying the produced AST fragment and the leftover stream.
-/

/-- Lexical token kinds of the host stream that the engine inspects:
NAME, STRING, ASSIGN, the block/variable delimiters and literal DATA text.
The end of the stream is represented by the empty list. -/
inductive Tok where
  | name (s : String)
  | string (s : String)
  | assign
  | blockBegin
  | blockEnd
  | varBegin
  | varEnd
  | data (s : String)
deriving DecidableEq, Repr

/-- Compile-time failures: the engine only ever raises template syntax
errors (`parser.fail` / `TokenStream.expect`), carrying a message. -/
inductive Err where
  | syntaxError (msg : String)
deriving DecidableEq, Repr

/-- Host AST fragments the engine emits (`jinja2.nodes`): constants,
names with a load/store context, calls, extension-method calls
(`Extension.call_method`, with the extension identifier abstracted away),
markup-safe wrappers, template-data literals, dicts, outputs and
assignments.  Keyword arguments are name/value pairs as in `nodes.Keyword`. -/
inductive JNode where
  | const (s : String)
  | name (id : String) (ctx : String)
  | call (f : JNode) (args : List JNode) (kwargs : List (String × JNode))
  | extCall (method : String) (args : List JNode) (kwargs : List (String × JNode))
  | markSafe (n : JNode)
  | templateData (s : String)
  | dict (pairs : List (JNode × JNode))
  | output (items : List JNode)
  | assign (target : JNode) (value : JNode)

/-- Description of a token as produced by the host's `describe_token`,
used in error messages. -/
def describeTok : Tok → String
  | .name n => n
  | .string _ => "string"
  | .assign => "="
  | .blockBegin => "begin of statement block"
  | .blockEnd => "end of statement block"
  | .varBegin => "begin of print statement"
  | .varEnd => "end of print statement"
  | .data _ => "template data / text"

/-- Error produced by the host's `TokenStream.expect` when the current
token does not match: at end of stream it reports an unexpected end of
template, otherwise the expected/got pair. -/
def expectErr (expected : String) (ts : List Tok) : Err :=
  match ts with
  | [] => .syntaxError ("unexpected end of template, expected '" ++ expected ++ "'")
  | t :: _ => .syntaxError ("expected token '" ++ expected ++ "', got '" ++ describeTok t ++ "'")

/-- Value attribute of a token (`token.value`); only NAME/STRING/DATA
values are ever inspected by the engine's dispatching code. -/
def tokValue : Tok → String
  | .name n => n
  | .string s => s
  | .data s => s
  | .assign => "="
  | .blockBegin => ""
  | .blockEnd => ""
  | .varBegin => ""
  | .varEnd => ""

/-- Python-dict insertion on an association list: overwrite the value in
place when the key is present, append otherwise. -/
def pyDictInsert (m : List (String × α)) (k : String) (v : α) : List (String × α) :=
  if m.any (fun p => p.1 = k) then
    m.map (fun p => if p.1 = k then (k, v) else p)
  else m ++ [(k, v)]

/-- Python-dict lookup on an association list. -/
def pyDictGet (m : List (String × α)) (k : String) : Option α :=
  (m.find? (fun p => p.1 = k)).map (fun p => p.2)

/-- Python-set insertion, modelled on a duplicate-free list kept in
insertion order (the set's iteration order is unspecified in Python;
membership is the semantically relevant content). -/
def setAdd (l : List String) (x : String) : List String :=
  if x ∈ l then l else l ++ [x]

/-- Run of adjacent STRING tokens, concatenated (the host expression
grammar's literal-concatenation rule in `parse_primary`). -/
def stringRun : List Tok → (String × List Tok)
  | .string s :: rest =>
    let (m, r) := stringRun rest
    (s ++ m, r)
  | ts => ("", ts)

/-- Modelled from the spec: the host Expression Sub-Parser
(`parser.parse_expression`, external to this repository), restricted to
the token shapes these tags feed it: a NAME token yields a load-context
name node; adjacent STRING literals are concatenated into one constant
(the host grammar concatenates adjacent literals); any other token is
rejected with the host's unexpected-token message. -/
def host_parse_expression : List Tok → Except Err (JNode × List Tok)
  | .name n :: rest => .ok (.name n "load", rest)
  | .string s :: rest =>
    let (m, r) := stringRun rest
    .ok (.const (s ++ m), r)
  | t :: _ => .error (.syntaxError ("unexpected '" ++ describeTok t ++ "'"))
  | [] => .error (.syntaxError "unexpected 'end of template'")

/-- Whether `stream.look()` (the token after the current one) is the
ASSIGN token — the continuation test of the `with` binding loop. -/
def lookIsAssign : List Tok → Bool
  | _ :: .assign :: _ => true
  | _ => false

/-- Host `expect(TOKEN_NAME)`: consume a NAME token or fail. -/
def expectName (ts : List Tok) : Except Err (String × List Tok) :=
  match ts with
  | .name n :: rest => .ok (n, rest)
  | _ => .error (expectErr "name" ts)

/-- Host `expect(TOKEN_STRING)`: consume a STRING token or fail. -/
def expectString (ts : List Tok) : Except Err (String × List Tok) :=
  match ts with
  | .string s :: rest => .ok (s, rest)
  | _ => .error (expectErr "string" ts)

/-- Host `expect(TOKEN_ASSIGN)`: consume the ASSIGN token or fail. -/
def expectAssign (ts : List Tok) : Except Err (List Tok) :=
  match ts with
  | .assign :: rest => .ok rest
  | _ => .error (expectErr "assign" ts)

/-- Host `expect(TOKEN_BLOCK_END)`: consume the closing tag delimiter. -/
def expectBlockEnd (ts : List Tok) : Except Err (List Tok) :=
  match ts with
  | .blockEnd :: rest => .ok rest
  | _ => .error (expectErr "block_end" ts)

/-- Modifier loop of `DjangoI18n._parse_trans`: repeatedly take NAME
tokens (`next_if(TOKEN_NAME)`) and interpret them as `noop`, `context
"<c>"` or `as <NAME>`, each legal at most once, with the noop/context
mutual-exclusion checks of the source. -/
def transModLoop (is_noop : Bool) (context : Option String) (as_var : Option String) :
    List Tok → Except Err (Bool × Option String × Option String × List Tok)
  | .name v :: rest =>
    if v = "noop" ∧ is_noop = false then
      if context.isSome then .error (.syntaxError "noop translation can't have context")
      else transModLoop true context as_var rest
    else if v = "context" ∧ context = none then
      if is_noop then .error (.syntaxError "noop translation can't have context")
      else
        match rest with
        | .string c :: rest2 => transModLoop is_noop (some c) as_var rest2
        | _ => .error (expectErr "string" rest)
    else if v = "as" ∧ as_var = none then
      match rest with
      | .name a :: rest2 => transModLoop is_noop context (some a) rest2
      | _ => .error (expectErr "name" rest)
    else .error (.syntaxError "expected 'noop', 'context' or 'as'")
  | ts => .ok (is_noop, context, as_var, ts)

/-- Embedding of `DjangoI18n._parse_trans` (stream positioned just past
the `trans` tag name): expect the message STRING, run the modifier loop,
and emit the literal (noop), a `pgettext` call (context) or a `gettext`
call, as an output or as an assignment when `as` was given. -/
def djangoI18n_parse_trans (ts : List Tok) : Except Err (JNode × List Tok) :=
  match ts with
  | .string s :: rest =>
    match transModLoop false none none rest with
    | .error e => .error e
    | .ok (is_noop, context, as_var, rest2) =>
      let out :=
        if is_noop then JNode.const s
        else
          match context with
          | some c => JNode.call (.name "pgettext" "load") [.const c, .const s] []
          | none => JNode.call (.name "gettext" "load") [.const s] []
      match as_var with
      | none => .ok (.output [out], rest2)
      | some a => .ok (.assign (.name a "store") out, rest2)
  | _ => .error (expectErr "string" ts)

/-- Parsed header of a `blocktrans` tag: the trimmed flag, the `asvar`
capture name, the `with` bindings (insertion-ordered map), the `count`
binding and the `context` string. -/
structure BTHeader where
  trimmed : Bool
  asVar : Option String
  withVars : List (String × JNode)
  count : Option (String × JNode)
  context : Option String

/-- Binding loop of the `with` clause: while the token after the current
one is ASSIGN, expect a NAME key, skip the assignment token and parse the
value expression (fuel bounds the iteration; it is supplied as the stream
length plus one, which the loop, consuming at least two tokens per round,
never exhausts). -/
def withLoop : Nat → List (String × JNode) → List Tok →
    Except Err (List (String × JNode) × List Tok)
  | 0, _, _ => .error (.syntaxError "out of fuel")
  | fuel + 1, acc, ts =>
    if lookIsAssign ts then
      match ts with
      | .name k :: _ :: rest2 =>
        match host_parse_expression rest2 with
        | .error e => .error e
        | .ok (e, rest3) => withLoop fuel (pyDictInsert acc k e) rest3
      | _ => .error (expectErr "name" ts)
    else .ok (acc, ts)

/-- Header parsing of `DjangoI18n._parse_blocktrans`: sequential
`skip_if` checks for `trimmed`, `asvar <NAME>`, `with <k>=<v>...`,
`count <NAME>=<expr>` and `context "<c>"`, then the closing delimiter. -/
def blocktransHeader (ts : List Tok) : Except Err (BTHeader × List Tok) :=
  let (trimmed, ts1) :=
    match ts with
    | .name "trimmed" :: r => (true, r)
    | _ => (false, ts)
  match
    (match ts1 with
     | .name "asvar" :: r =>
       match expectName r with
       | .error e => .error e
       | .ok (a, r2) => .ok (some a, r2)
     | _ => .ok (none, ts1) :
     Except Err (Option String × List Tok))
  with
  | .error e => .error e
  | .ok (asVar, ts2) =>
    match
      (match ts2 with
       | .name "with" :: r => withLoop (r.length + 1) [] r
       | _ => .ok ([], ts2) :
       Except Err (List (String × JNode) × List Tok))
    with
    | .error e => .error e
    | .ok (withVars, ts3) =>
      match
        (match ts3 with
         | .name "count" :: r =>
           match expectName r with
           | .error e => .error e
           | .ok (c, r2) =>
             match expectAssign r2 with
             | .error e => .error e
             | .ok r3 =>
               match host_parse_expression r3 with
               | .error e => .error e
               | .ok (e, r4) => .ok (some (c, e), r4)
         | _ => .ok (none, ts3) :
         Except Err (Option (String × JNode) × List Tok))
      with
      | .error e => .error e
      | .ok (count, ts4) =>
        match
          (match ts4 with
           | .name "context" :: r =>
             match expectString r with
             | .error e => .error e
             | .ok (c, r2) => .ok (some c, r2)
           | _ => .ok (none, ts4) :
           Except Err (Option String × List Tok))
        with
        | .error e => .error e
        | .ok (context, ts5) =>
          match expectBlockEnd ts5 with
          | .error e => .error e
          | .ok ts6 =>
            .ok ({ trimmed := trimmed, asVar := asVar, withVars := withVars,
                   count := count, context := context }, ts6)

/-- Body loop of `DjangoI18n._parse_blocktrans`: iterate the stream,
accumulating DATA text; a nested `{{ name }}` becomes the placeholder
`%(name)s` and, when the name is neither a `with` binding nor the `count`
binding, an implicit binding; a nested `{% plural %}` (only while no
singular body was split off yet) requires `count` and splits the body; a
nested `{% endblocktrans %}` ends the loop.  Tokens of any other kind are
skipped, and the loop also ends at the end of the stream (the source's
end-of-template check compares a token object against a string constant
and never fires). -/
def bodyLoop (wk : List String) (cn : Option String) :
    Option (List String) → List String → List String → List Tok →
    Except Err (Option (List String) × List String × List String × List Tok)
  | bs, body, av, [] => .ok (bs, body, av, [])
  | bs, body, av, .data s :: rest => bodyLoop wk cn bs (body ++ [s]) av rest
  | bs, body, av, .varBegin :: .name n :: .varEnd :: rest =>
    let av2 := if n ∈ wk ∨ cn = some n then av else setAdd av n
    bodyLoop wk cn bs (body ++ ["%(" ++ n ++ ")s"]) av2 rest
  | _, _, _, .varBegin :: .name _ :: rest => .error (expectErr "variable_end" rest)
  | _, _, _, .varBegin :: rest => .error (expectErr "name" rest)
  | none, body, av, .blockBegin :: .name "plural" :: rest =>
    if cn = none then .error (.syntaxError "used plural without specifying count")
    else
      match rest with
      | .blockEnd :: rest2 => bodyLoop wk cn (some body) [] av rest2
      | _ => .error (expectErr "block_end" rest)
  | bs, body, av, .blockBegin :: .name "endblocktrans" :: rest => .ok (bs, body, av, rest)
  | _, _, _, .blockBegin :: rest => .error (expectErr "endblocktrans" rest)
  | bs, body, av, _ :: rest => bodyLoop wk cn bs body av rest

/-- Whitespace test matching Python's `str.strip()` default set on the
character range exercised here (ASCII whitespace plus the latin-1
next-line and the common Unicode line/paragraph separators). -/
def pyIsSpace (c : Char) : Bool :=
  c == ' ' || c == '\t' || c == '\n' || c == '\r' || c == '\x0b' || c == '\x0c' ||
  c == '\x1c' || c == '\x1d' || c == '\x1e' || c == '\x1f' || c == '\x85' ||
  c == ' ' || c == ' '

/-- Python `str.strip()`: drop leading and trailing whitespace. -/
def pyStrip (s : String) : String :=
  String.mk (((s.data.dropWhile pyIsSpace).reverse.dropWhile pyIsSpace).reverse)

/-- Line-boundary test of Python's `str.splitlines()` on the character
range exercised here. -/
def pyIsLineBreak (c : Char) : Bool :=
  c == '\n' || c == '\r' || c == '\x0b' || c == '\x0c' ||
  c == '\x1c' || c == '\x1d' || c == '\x1e' || c == '\x85' ||
  c == ' ' || c == ' '

/-- Worker for `pySplitlines`, accumulating the current line reversed. -/
def pySplitlinesAux : List Char → List Char → List String
  | [], acc => if acc.isEmpty then [] else [String.mk acc.reverse]
  | '\r' :: '\n' :: rest, acc => String.mk acc.reverse :: pySplitlinesAux rest []
  | c :: rest, acc =>
    if pyIsLineBreak c then String.mk acc.reverse :: pySplitlinesAux rest []
    else pySplitlinesAux rest (c :: acc)

/-- Python `str.splitlines()`: split at line boundaries (treating CRLF as
one boundary), producing no trailing empty line for a terminal newline. -/
def pySplitlines (s : String) : List String :=
  pySplitlinesAux s.data []

/-- Whitespace reduction applied to each accumulated body when `trimmed`
is set: `' '.join(map(lambda s: s.strip(), body.strip().splitlines()))`. -/
def blocktransTrim (body : String) : String :=
  String.intercalate " " ((pySplitlines (pyStrip body)).map pyStrip)

/-- Join of the accumulated body chunks followed by the optional
`trimmed` reduction. -/
def blocktransBodyText (trimmed : Bool) (chunks : List String) : String :=
  if trimmed then blocktransTrim (String.join chunks) else String.join chunks

/-- Emission step of `DjangoI18n._parse_blocktrans` after the body loop:
the count-without-plural check, the `trans_vars` dict combining `with`
bindings, the `count` binding and the implicit (load-context) bindings,
the keyword arguments, the (optionally trimmed) template-data arguments,
and the markup-safe `_make_blocktrans` call as output or assignment. -/
def blocktransFinish (hdr : BTHeader) (bs : Option (List String)) (body : List String)
    (av : List String) : Except Err JNode :=
  if hdr.count.isSome ∧ bs.isNone then .error (.syntaxError "plural form not found")
  else
    let trans_vars : List (JNode × JNode) :=
      hdr.withVars.map (fun p => (JNode.const p.1, p.2))
        ++ (match hdr.count with
            | some (c, e) => [(JNode.const c, e)]
            | none => [])
        ++ av.map (fun k => (JNode.const k, JNode.name k "load"))
    let kwargs : List (String × JNode) :=
      [("trans_vars", JNode.dict trans_vars)]
        ++ (match hdr.context with
            | some c => [("context", JNode.const c)]
            | none => [])
        ++ (match hdr.count with
            | some (c, _) => [("count_var", JNode.const c)]
            | none => [])
    let args : List JNode :=
      match bs with
      | some bsl => [JNode.templateData (blocktransBodyText hdr.trimmed bsl),
                     JNode.templateData (blocktransBodyText hdr.trimmed body)]
      | none => [JNode.templateData (blocktransBodyText hdr.trimmed body)]
    let call := JNode.markSafe (JNode.extCall "_make_blocktrans" args kwargs)
    match hdr.asVar with
    | some a => .ok (.assign (.name a "store") call)
    | none => .ok (.output [call])

/-- Embedding of `DjangoI18n._parse_blocktrans` (stream positioned just
past the `blocktrans` tag name): header, body loop, emission. -/
def djangoI18n_parse_blocktrans (ts : List Tok) : Except Err (JNode × List Tok) :=
  match blocktransHeader ts with
  | .error e => .error e
  | .ok (hdr, ts1) =>
    match bodyLoop (hdr.withVars.map (fun p => p.1)) (hdr.count.map (fun p => p.1))
        none [] [] ts1 with
    | .error e => .error e
    | .ok (bs, body, av, ts2) =>
      match blocktransFinish hdr bs body av with
      | .error e => .error e
      | .ok n => .ok (n, ts2)

/-- Embedding of `DjangoI18n.parse`: consume the tag-name token and
dispatch on its value (`blocktrans` versus `trans`); at the end of the
stream the host returns the EOF token, whose value is not `blocktrans`,
so the trans branch runs and fails expecting the message string. -/
def djangoI18n_parse (ts : List Tok) : Except Err (JNode × List Tok) :=
  match ts with
  | t :: rest =>
    if tokValue t = "blocktrans" then djangoI18n_parse_blocktrans rest
    else djangoI18n_parse_trans rest
  | [] => djangoI18n_parse_trans []

/-- Embedding of `DjangoCsrf.parse`: expect `name:csrf_token` and emit
the markup-safe `_csrf_token` call on the `csrf_token` context name. -/
def djangoCsrf_parse (ts : List Tok) : Except Err (JNode × List Tok) :=
  match ts with
  | .name "csrf_token" :: rest =>
    .ok (.output [.markSafe (.extCall "_csrf_token" [.name "csrf_token" "load"] [])], rest)
  | _ => .error (expectErr "csrf_token" ts)

/-- Optional `as <NAME>` capture suffix shared by the static and now
tags: on `name:as`, consume it and one NAME, emitting an assignment. -/
def asSuffix (call : JNode) (ts : List Tok) : Except Err (JNode × List Tok) :=
  match ts with
  | .name "as" :: rest =>
    match rest with
    | .name a :: rest2 => .ok (.assign (.name a "store") call, rest2)
    | _ => .error (expectErr "name" rest)
  | _ => .ok (.output [call], ts)

/-- Embedding of `DjangoStatic.parse`: consume the tag name, expect the
path STRING, build the `_static` call and apply the capture suffix. -/
def djangoStatic_parse (ts : List Tok) : Except Err (JNode × List Tok) :=
  match ts with
  | _ :: rest =>
    match expectString rest with
    | .error e => .error e
    | .ok (p, rest2) => asSuffix (.extCall "_static" [.const p] []) rest2
  | [] => .error (expectErr "string" [])

/-- Embedding of `DjangoNow.parse`: consume the tag name, expect the
format STRING, build the `_now` call and apply the capture suffix. -/
def djangoNow_parse (ts : List Tok) : Except Err (JNode × List Tok) :=
  match ts with
  | _ :: rest =>
    match expectString rest with
    | .error e => .error e
    | .ok (f, rest2) => asSuffix (.extCall "_now" [.const f] []) rest2
  | [] => .error (expectErr "string" [])

/-- Embedding of `DjangoUrl.parse_expression`: a current STRING token is
consumed directly as one whole constant (so adjacent string literals
stay distinct arguments); anything else re-enters the host expression
sub-parser. -/
def djangoUrl_parse_expression (ts : List Tok) : Except Err (JNode × List Tok) :=
  match ts with
  | .string s :: rest => .ok (.const s, rest)
  | _ => host_parse_expression ts

/-- Argument mode of the url tag's loop: `args is None / kwargs is None`
in the source becomes an undecided/positional/keyword variant. -/
inductive UrlMode where
  | undecided
  | positional (args : List JNode)
  | keyword (kwargs : List (String × JNode))

/-- Argument loop of `DjangoUrl.parse`: until the closing delimiter,
handle `as <NAME>`, then per the locked mode consume a positional value,
or a `NAME = <value>` keyword pair (a non-NAME token in keyword mode is
the keyword-argument-name failure); an undecided mode is locked by
whether the token after the current one is ASSIGN, without consuming
anything (fuel bounds the iteration; it is supplied as the stream length
plus one and each round past the single mode-locking step consumes at
least one token, so it is never exhausted). -/
def urlArgsLoop : Nat → UrlMode → List Tok → Except Err (UrlMode × Option String × List Tok)
  | 0, _, _ => .error (.syntaxError "out of fuel")
  | _ + 1, mode, .blockEnd :: rest => .ok (mode, none, .blockEnd :: rest)
  | _ + 1, mode, .name "as" :: rest =>
    match rest with
    | .name v :: rest2 => .ok (mode, some v, rest2)
    | _ => .error (expectErr "name" rest)
  | fuel + 1, .positional args, ts =>
    match djangoUrl_parse_expression ts with
    | .error e => .error e
    | .ok (e, rest) => urlArgsLoop fuel (.positional (args ++ [e])) rest
  | fuel + 1, .keyword kws, .name k :: rest =>
    match rest with
    | .assign :: rest2 =>
      match djangoUrl_parse_expression rest2 with
      | .error e => .error e
      | .ok (e, rest3) => urlArgsLoop fuel (.keyword (pyDictInsert kws k e)) rest3
    | _ => .error (expectErr "assign" rest)
  | _ + 1, .keyword _, t :: _ =>
    .error (.syntaxError ("got '" ++ describeTok t ++ "', expected name for keyword argument"))
  | _ + 1, .keyword _, [] =>
    .error (.syntaxError "got 'end of template', expected name for keyword argument")
  | fuel + 1, .undecided, ts =>
    if lookIsAssign ts then urlArgsLoop fuel (.keyword []) ts
    else urlArgsLoop fuel (.positional []) ts

/-- Embedding of `DjangoUrl.parse`: consume the tag name, expect the
view-name STRING, run the argument loop, then emit the `_url_reverse`
call with the view name inserted before the positional arguments and the
keyword pairs (the host turns an absent keyword list into an empty one),
as output or assignment. -/
def djangoUrl_parse (ts : List Tok) : Except Err (JNode × List Tok) :=
  match ts with
  | _ :: rest =>
    match rest with
    | .string v :: rest2 =>
      match urlArgsLoop (rest2.length + 1) .undecided rest2 with
      | .error e => .error e
      | .ok (mode, asv, rest3) =>
        let argkw : List JNode × List (String × JNode) :=
          match mode with
          | .undecided => ([JNode.const v], [])
          | .positional a => (JNode.const v :: a, [])
          | .keyword k => ([JNode.const v], k)
        let call := JNode.extCall "_url_reverse" argkw.1 argkw.2
        match asv with
        | none => .ok (.output [call], rest3)
        | some a => .ok (.assign (.name a "store") call, rest3)
    | _ => .error (expectErr "string" rest)
  | [] => .error (expectErr "string" [])

/-- Member grammars of the composite extension. -/
inductive TagCls where
  | csrf
  | i18n
  | now
  | static
  | url
deriving DecidableEq, Repr

/-- Parse routine of each member grammar, invoked on the stream still
positioned at the tag-name token. -/
def tagClsParse : TagCls → List Tok → Except Err (JNode × List Tok)
  | .csrf => djangoCsrf_parse
  | .i18n => djangoI18n_parse
  | .now => djangoNow_parse
  | .static => djangoStatic_parse
  | .url => djangoUrl_parse

/-- Python dict construction from a literal entry list: entries are
inserted left to right, a duplicate key silently overwriting the earlier
value (dict literals never fail). -/
def mkPyDict (entries : List (String × α)) : List (String × α) :=
  entries.foldl (fun m kv => pyDictInsert m kv.1 kv.2) []

/-- The `_tag_class` mapping of `DjangoCompat`, built from its literal
entries. -/
def djangoCompat_tag_class : List (String × TagCls) :=
  mkPyDict [("csrf_token", .csrf), ("trans", .i18n), ("blocktrans", .i18n),
            ("now", .now), ("static", .static), ("url", .url)]

/-- Embedding of `DjangoCompat.parse`: read the current tag name without
consuming it, look it up in `_tag_class` and hand the unchanged stream to
the owning grammar; an unknown name fails. -/
def djangoCompat_parse (ts : List Tok) : Except Err (JNode × List Tok) :=
  match ts with
  | .name n :: rest =>
    match pyDictGet djangoCompat_tag_class n with
    | some cls => tagClsParse cls (.name n :: rest)
    | none => .error (.syntaxError ("got unexpected tag '" ++ n ++ "'"))
  | _ => .error (.syntaxError "got unexpected tag ''")

/-- Embedding of `DjangoL10n._compose`: wrap `g` inside `f`. -/
def compose (f g : α → α) : α → α :=
  fun v => f (g v)

/-- Embedding of the finalizer installation in `DjangoL10n.__init__`:
collect the localtime transform (when time zones are on) then the
localize transform (when localization is on); with a nonempty list, start
from the environment's existing finalizer — or, when none is installed,
from the first collected transform — and wrap each remaining transform
around the chain built so far. -/
def djangoL10n_install (useTZ useL10N : Bool) (templateLocaltime localize : α → α)
    (envFinalize : Option (α → α)) : Option (α → α) :=
  let fns : List (α → α) :=
    (if useTZ then [templateLocaltime] else []) ++ (if useL10N then [localize] else [])
  match fns with
  | [] => envFinalize
  | f0 :: fnsRest =>
    match envFinalize with
    | none => some (fnsRest.foldl (fun acc f => compose f acc) f0)
    | some e => some ((f0 :: fnsRest).foldl (fun acc f => compose f acc) e)

/-- Application of an optional finalizer, the identity when none is
installed. -/
def applyFinal (f : Option (α → α)) (v : α) : α :=
  match f with
  | some fn => fn v
  | none => v

/-- Opaque runtime collaborators of `DjangoI18n._make_blocktrans`: the
environment finalizer, the four translation lookups and the host's
percent-style named substitution, over an arbitrary value type. -/
structure I18nRuntime (V : Type) where
  finalize : Option (V → V)
  ugettext : String → String
  pgettext : String → String → String
  ungettext : String → String → V → String
  npgettext : String → String → String → V → String
  fmt : String → List (String × V) → String

/-- Embedding of `DjangoI18n._make_blocktrans`: when a finalizer is
installed, build the finalized binding map; substitute the finalized map
into the selected translation, where the plural branches pass
`trans_vars[count_var]` — the raw, unfinalized binding value — as the
count (a missing count binding, Python's `KeyError`, is `none`). -/
def make_blocktrans (rt : I18nRuntime V) (singular : String) (plural : Option String)
    (context : Option String) (trans_vars : List (String × V)) (count_var : Option String) :
    Option String :=
  let finalized_trans_vars :=
    match rt.finalize with
    | some f => trans_vars.map (fun kv => (kv.1, f kv.2))
    | none => trans_vars
  match plural with
  | none =>
    match context with
    | none => some (rt.fmt (rt.ugettext singular) finalized_trans_vars)
    | some c => some (rt.fmt (rt.pgettext c singular) finalized_trans_vars)
  | some p =>
    match count_var.bind (pyDictGet trans_vars) with
    | none => none
    | some cv =>
      match context with
      | none => some (rt.fmt (rt.ungettext singular p cv) finalized_trans_vars)
      | some c => some (rt.fmt (rt.npgettext c singular p cv) finalized_trans_vars)

/-- Helper: prepending the empty string is the identity. -/
theorem str_empty_append (s : String) : "" ++ s = s :=
  String.empty_append s

/-- Helper: joining a one-element list of strings yields its element. -/
theorem string_join_singleton (s : String) : String.join [s] = s := by
  simp [String.join, str_empty_append]

/-- Claim C1 (counterexample): the blocktrans header clauses are NOT
accepted in any relative order — the clause set \x7btrimmed, asvar v\x7d parses
when written `trimmed asvar v` but fails when written `asvar v trimmed`,
so the parse is order-sensitive, contradicting the claim. -/
theorem blocktrans_header_order_counterexample :
    djangoI18n_parse_blocktrans
        [Tok.name "asvar", Tok.name "v", Tok.name "trimmed", Tok.blockEnd,
         Tok.data "t", Tok.blockBegin, Tok.name "endblocktrans"]
      = .error (.syntaxError "expected token 'block_end', got 'trimmed'") ∧
    djangoI18n_parse_blocktrans
        [Tok.name "trimmed", Tok.name "asvar", Tok.name "v", Tok.blockEnd,
         Tok.data "t", Tok.blockBegin, Tok.name "endblocktrans"]
      = .ok (.assign (.name "v" "store") (.markSafe (.extCall "_make_blocktrans"
          [.templateData "t"] [("trans_vars", .dict [])])), []) :=
  ⟨rfl, rfl⟩

/-- Claim C1 (amended): the blocktrans header accepts its optional
clauses only in the fixed relative order `trimmed`, `asvar`, `with`,
`count`, `context` (each at most once); in that canonical order, for
arbitrary clause payloads, the parse succeeds and produces the parsed-tag
value with the corresponding trimmed flag, capture target, with-bindings,
count binding and context, while a header placing `trimmed` after `asvar`
is rejected at the closing-delimiter check. -/
theorem blocktrans_header_canonical_order :
    (∀ (a w v c n s : String),
      djangoI18n_parse_blocktrans
          [Tok.name "trimmed", Tok.name "asvar", Tok.name a, Tok.name "with",
           Tok.name w, Tok.assign, Tok.name v, Tok.name "count", Tok.name c,
           Tok.assign, Tok.name n, Tok.name "context", Tok.string s, Tok.blockEnd,
           Tok.data "one", Tok.blockBegin, Tok.name "plural", Tok.blockEnd,
           Tok.data "many", Tok.blockBegin, Tok.name "endblocktrans"]
        = .ok (.assign (.name a "store") (.markSafe (.extCall "_make_blocktrans"
            [.templateData "one", .templateData "many"]
            [("trans_vars", .dict [(.const w, .name v "load"), (.const c, .name n "load")]),
             ("context", .const s), ("count_var", .const c)])), [])) ∧
    (∀ (a : String) (rest : List Tok),
      blocktransHeader
          (Tok.name "asvar" :: Tok.name a :: Tok.name "trimmed" :: Tok.blockEnd :: rest)
        = .error (.syntaxError "expected token 'block_end', got 'trimmed'")) :=
  ⟨fun _ _ _ _ _ _ => rfl, fun _ _ => rfl⟩

/-- Claim C2 (counterexample): building the composite's tag map from two
member entries that both claim the tag name `x` does not fail at
construction — dict construction silently keeps the later entry, exactly
as if only that member had been registered. -/
theorem compat_duplicate_tag_counterexample :
    mkPyDict [("x", TagCls.csrf), ("x", TagCls.i18n)] = [("x", TagCls.i18n)] ∧
    mkPyDict [("x", TagCls.csrf), ("x", TagCls.i18n)] = mkPyDict [("x", TagCls.i18n)] :=
  ⟨rfl, rfl⟩

/-- Claim C2 (amended): the composite dispatcher is a fixed name-to-grammar
dict (duplicate names would silently resolve to the later entry rather
than fail at construction); at parse time every registered tag name is
routed to the owning member grammar with the cursor unchanged, behaving
exactly as that grammar invoked standalone. -/
theorem compat_dispatch_routes_unchanged :
    (∀ (n : String) (cls : TagCls) (ts : List Tok),
      pyDictGet djangoCompat_tag_class n = some cls →
      djangoCompat_parse (Tok.name n :: ts) = tagClsParse cls (Tok.name n :: ts)) ∧
    djangoCompat_tag_class
      = [("csrf_token", .csrf), ("trans", .i18n), ("blocktrans", .i18n),
         ("now", .now), ("static", .static), ("url", .url)] := by
  constructor
  · intro n cls ts h
    simp [djangoCompat_parse, h]
  · rfl

/-- Claim C2 (witness): dispatching the `url` tag through the composite
equals running the url grammar standalone on the unchanged stream. -/
theorem compat_dispatch_routes_unchanged_witness :
    djangoCompat_parse [Tok.name "url", Tok.string "v", Tok.blockEnd]
      = tagClsParse TagCls.url [Tok.name "url", Tok.string "v", Tok.blockEnd] :=
  compat_dispatch_routes_unchanged.1 "url" TagCls.url [Tok.string "v", Tok.blockEnd] rfl

/-- Claim C3 (counterexample): the input `'v' 'foo' kw=bar` (positional
first, keyword later) does fail, but with the host expression parser's
error `unexpected '='` — `kw` is consumed as a positional name argument
and the stray `=` aborts the next expression — not with the
keyword-argument-name error the claim states. -/
theorem url_mixed_args_counterexample :
    djangoUrl_parse
        [Tok.name "url", Tok.string "v", Tok.string "foo", Tok.name "kw", Tok.assign,
         Tok.name "bar", Tok.blockEnd]
      = .error (.syntaxError "unexpected '='") ∧
    Err.syntaxError "unexpected '='"
      ≠ Err.syntaxError "got 'string', expected name for keyword argument" :=
  ⟨rfl, by decide⟩

/-- Claim C3 (amended): the url tag's argument mode is locked by the
shape of the first argument and positional and keyword arguments are
never accepted together: in keyword mode any non-NAME token where a
keyword name is expected fails with the keyword-argument-name error; a
successful parse never carries both extra positional arguments and
keyword pairs; and with keyword mode locked first, a later positional
string argument fails with `got 'string', expected name for keyword
argument` (a keyword argument after a locked positional mode instead
fails inside the host expression parser, per the counterexample). -/
theorem url_mode_lock :
    (∀ (fuel : Nat) (kws : List (String × JNode)) (t : Tok) (rest : List Tok),
      (∀ s, t ≠ Tok.name s) → t ≠ Tok.blockEnd →
      urlArgsLoop (fuel + 1) (.keyword kws) (t :: rest)
        = .error (.syntaxError
            ("got '" ++ describeTok t ++ "', expected name for keyword argument"))) ∧
    (∀ (ts : List Tok) (n : JNode) (rest : List Tok),
      djangoUrl_parse ts = .ok (n, rest) →
      ∃ (view : String) (args : List JNode) (kws : List (String × JNode)),
        (args = [] ∨ kws = []) ∧
        (n = .output [.extCall "_url_reverse" (JNode.const view :: args) kws] ∨
         ∃ a, n = .assign (.name a "store")
            (.extCall "_url_reverse" (JNode.const view :: args) kws))) ∧
    djangoUrl_parse
        [Tok.name "url", Tok.string "v", Tok.name "kw", Tok.assign, Tok.string "a",
         Tok.string "b", Tok.blockEnd]
      = .error (.syntaxError "got 'string', expected name for keyword argument") := by
  refine ⟨?_, ?_, rfl⟩
  · intro fuel kws t rest h1 h2
    cases t with
    | name s => exact absurd rfl (h1 s)
    | blockEnd => exact absurd rfl h2
    | string s => rfl
    | assign => rfl
    | blockBegin => rfl
    | varBegin => rfl
    | varEnd => rfl
    | data s => rfl
  · intro ts n rest h
    unfold djangoUrl_parse at h
    split at h
    case h_2 => exact absurd h (by simp)
    case h_1 _ rest1 =>
      split at h
      case h_2 => exact absurd h (by simp)
      case h_1 v rest2 =>
        split at h
        case h_1 => exact absurd h (by simp)
        case h_2 mode asv rest3 _ =>
          cases mode with
          | undecided =>
            cases asv with
            | none =>
              simp only [Except.ok.injEq, Prod.mk.injEq] at h
              exact ⟨v, [], [], Or.inl rfl, Or.inl h.1.symm⟩
            | some a =>
              simp only [Except.ok.injEq, Prod.mk.injEq] at h
              exact ⟨v, [], [], Or.inl rfl, Or.inr ⟨a, h.1.symm⟩⟩
          | positional args =>
            cases asv with
            | none =>
              simp only [Except.ok.injEq, Prod.mk.injEq] at h
              exact ⟨v, args, [], Or.inr rfl, Or.inl h.1.symm⟩
            | some a =>
              simp only [Except.ok.injEq, Prod.mk.injEq] at h
              exact ⟨v, args, [], Or.inr rfl, Or.inr ⟨a, h.1.symm⟩⟩
          | keyword kws =>
            cases asv with
            | none =>
              simp only [Except.ok.injEq, Prod.mk.injEq] at h
              exact ⟨v, [], kws, Or.inl rfl, Or.inl h.1.symm⟩
            | some a =>
              simp only [Except.ok.injEq, Prod.mk.injEq] at h
              exact ⟨v, [], kws, Or.inl rfl, Or.inr ⟨a, h.1.symm⟩⟩

/-- Claim C3 (witness): in keyword mode a STRING token where a keyword
name is expected is rejected with the keyword-argument-name error. -/
theorem url_mode_lock_witness :
    urlArgsLoop (0 + 1) (UrlMode.keyword []) [Tok.string "x"]
      = .error (.syntaxError "got 'string', expected name for keyword argument") :=
  url_mode_lock.1 0 [] (Tok.string "x") [] (fun _ h => Tok.noConfusion h)
    (fun h => Tok.noConfusion h)

/-- Claim C4: in the trans tag, `noop` followed by `context "c"` and
`context "c"` followed by `noop` both fail at the offending token with
`noop translation can't have context`, and any modifier name other than
`noop`, `context` or `as` fails with `expected 'noop', 'context' or 'as'`. -/
theorem trans_noop_context_exclusive :
    (∀ (s : String) (rest : List Tok),
      djangoI18n_parse_trans
          (Tok.string s :: Tok.name "noop" :: Tok.name "context" :: rest)
        = .error (.syntaxError "noop translation can't have context")) ∧
    (∀ (s c : String) (rest : List Tok),
      djangoI18n_parse_trans
          (Tok.string s :: Tok.name "context" :: Tok.string c :: Tok.name "noop" :: rest)
        = .error (.syntaxError "noop translation can't have context")) ∧
    (∀ (s m : String) (rest : List Tok), m ≠ "noop" → m ≠ "context" → m ≠ "as" →
      djangoI18n_parse_trans (Tok.string s :: Tok.name m :: rest)
        = .error (.syntaxError "expected 'noop', 'context' or 'as'")) := by
  refine ⟨?_, ?_, ?_⟩
  · intro s rest
    cases rest with
    | nil => rfl
    | cons t rest2 => cases t <;> rfl
  · intro s c rest
    cases rest with
    | nil => rfl
    | cons t rest2 => cases t <;> rfl
  · intro s m rest h1 h2 h3
    cases rest with
    | nil => simp [djangoI18n_parse_trans, transModLoop, h1, h2, h3]
    | cons t rest2 => cases t <;> simp [djangoI18n_parse_trans, transModLoop, h1, h2, h3]

/-- Claim C4 (witness): the unknown modifier `foo` is rejected with the
expected-modifier error. -/
theorem trans_noop_context_exclusive_witness :
    djangoI18n_parse_trans [Tok.string "x", Tok.name "foo"]
      = .error (.syntaxError "expected 'noop', 'context' or 'as'") :=
  trans_noop_context_exclusive.2.2 "x" "foo" [] (by decide) (by decide) (by decide)

/-- Claim C5: a `plural` marker reached while no `count` clause was given
always fails with `used plural without specifying count` (first
conjunct, for any loop state); closing the tag with `count` given but no
singular/plural split always fails with `plural form not found` (second
conjunct, for any header and accumulated body); the last two conjuncts
exercise both failures end to end. -/
theorem blocktrans_plural_count_errors :
    (∀ (wk : List String) (body av : List String) (rest : List Tok),
      bodyLoop wk none none body av (Tok.blockBegin :: Tok.name "plural" :: rest)
        = .error (.syntaxError "used plural without specifying count")) ∧
    (∀ (hdr : BTHeader) (ce : String × JNode) (body av : List String),
      hdr.count = some ce →
      blocktransFinish hdr none body av = .error (.syntaxError "plural form not found")) ∧
    djangoI18n_parse_blocktrans
        [Tok.name "count", Tok.name "c", Tok.assign, Tok.name "n", Tok.blockEnd,
         Tok.data "x", Tok.blockBegin, Tok.name "endblocktrans"]
      = .error (.syntaxError "plural form not found") ∧
    djangoI18n_parse_blocktrans
        [Tok.blockEnd, Tok.data "a", Tok.blockBegin, Tok.name "plural", Tok.blockEnd,
         Tok.data "b", Tok.blockBegin, Tok.name "endblocktrans"]
      = .error (.syntaxError "used plural without specifying count") := by
  refine ⟨?_, ?_, rfl, rfl⟩
  · intro wk body av rest
    cases rest with
    | nil => rfl
    | cons t rest2 => cases t <;> rfl
  · intro hdr ce body av h
    simp [blocktransFinish, h]

/-- Claim C5 (witness): a header carrying a count binding, closed with no
plural split, is rejected at emission. -/
theorem blocktrans_plural_count_errors_witness :
    blocktransFinish
        { trimmed := false, asVar := none, withVars := [],
          count := some ("n", JNode.name "m" "load"), context := none } none ["x"] []
      = .error (.syntaxError "plural form not found") :=
  blocktrans_plural_count_errors.2.1 _ ("n", JNode.name "m" "load") ["x"] [] rfl

/-- Claim C6: a nested `\x7b\x7b x \x7d\x7d` whose name is neither a `with` binding
nor the `count` binding contributes exactly the placeholder `%(x)s` to
the accumulated body text, and `x` enters the emitted binding dict as a
load of `x` from the ambient render context, not as a `with` entry. -/
theorem blocktrans_implicit_binding (x : String) (h1 : x ≠ "w") (h2 : x ≠ "c") :
    djangoI18n_parse_blocktrans
        [Tok.name "with", Tok.name "w", Tok.assign, Tok.name "v",
         Tok.name "count", Tok.name "c", Tok.assign, Tok.name "m", Tok.blockEnd,
         Tok.varBegin, Tok.name x, Tok.varEnd,
         Tok.blockBegin, Tok.name "plural", Tok.blockEnd, Tok.data "p",
         Tok.blockBegin, Tok.name "endblocktrans"]
      = .ok (.output [.markSafe (.extCall "_make_blocktrans"
          [.templateData ("%(" ++ x ++ ")s"), .templateData "p"]
          [("trans_vars", .dict
              [(.const "w", .name "v" "load"), (.const "c", .name "m" "load"),
               (.const x, .name x "load")]),
           ("count_var", .const "c")])], []) := by
  have h2' : "c" ≠ x := fun h => h2 h.symm
  have hh : blocktransHeader
      [Tok.name "with", Tok.name "w", Tok.assign, Tok.name "v",
       Tok.name "count", Tok.name "c", Tok.assign, Tok.name "m", Tok.blockEnd,
       Tok.varBegin, Tok.name x, Tok.varEnd,
       Tok.blockBegin, Tok.name "plural", Tok.blockEnd, Tok.data "p",
       Tok.blockBegin, Tok.name "endblocktrans"]
      = .ok ({ trimmed := false, asVar := none,
               withVars := [("w", .name "v" "load")],
               count := some ("c", .name "m" "load"), context := none },
             [Tok.varBegin, Tok.name x, Tok.varEnd,
              Tok.blockBegin, Tok.name "plural", Tok.blockEnd, Tok.data "p",
              Tok.blockBegin, Tok.name "endblocktrans"]) := rfl
  have hb : bodyLoop ["w"] (some "c") none [] []
      [Tok.varBegin, Tok.name x, Tok.varEnd,
       Tok.blockBegin, Tok.name "plural", Tok.blockEnd, Tok.data "p",
       Tok.blockBegin, Tok.name "endblocktrans"]
      = .ok (some ["%(" ++ x ++ ")s"], ["p"], [x], []) := by
    simp [bodyLoop, setAdd, h1, h2']
  simp [djangoI18n_parse_blocktrans, hh, hb, blocktransFinish, blocktransBodyText,
        string_join_singleton]

/-- Claim C6 (witness): the implicit binding of the name `x` at a
concrete input. -/
theorem blocktrans_implicit_binding_witness :
    djangoI18n_parse_blocktrans
        [Tok.name "with", Tok.name "w", Tok.assign, Tok.name "v",
         Tok.name "count", Tok.name "c", Tok.assign, Tok.name "m", Tok.blockEnd,
         Tok.varBegin, Tok.name "x", Tok.varEnd,
         Tok.blockBegin, Tok.name "plural", Tok.blockEnd, Tok.data "p",
         Tok.blockBegin, Tok.name "endblocktrans"]
      = .ok (.output [.markSafe (.extCall "_make_blocktrans"
          [.templateData ("%(" ++ "x" ++ ")s"), .templateData "p"]
          [("trans_vars", .dict
              [(.const "w", .name "v" "load"), (.const "c", .name "m" "load"),
               (.const "x", .name "x" "load")]),
           ("count_var", .const "c")])], []) :=
  blocktrans_implicit_binding "x" (by decide) (by decide)

/-- Claim C7: the `trimmed` reduction strips the whole body, strips each
line and joins with single spaces, so the body consisting of a newline,
two spaces, `a`, a newline, two spaces, `b` and a newline yields exactly
`a b`; the parse applies it to the singular body and, when a plural split
is present, to the plural body as well. -/
theorem blocktrans_trimmed_join :
    blocktransTrim "\n  a\n  b\n" = "a b" ∧
    djangoI18n_parse_blocktrans
        [Tok.name "trimmed", Tok.blockEnd, Tok.data "\n  a\n  b\n",
         Tok.blockBegin, Tok.name "endblocktrans"]
      = .ok (.output [.markSafe (.extCall "_make_blocktrans"
          [.templateData "a b"] [("trans_vars", .dict [])])], []) ∧
    djangoI18n_parse_blocktrans
        [Tok.name "trimmed", Tok.name "count", Tok.name "n", Tok.assign, Tok.name "m",
         Tok.blockEnd, Tok.data "\n  a\n  b\n", Tok.blockBegin, Tok.name "plural",
         Tok.blockEnd, Tok.data "  c  \n d ", Tok.blockBegin, Tok.name "endblocktrans"]
      = .ok (.output [.markSafe (.extCall "_make_blocktrans"
          [.templateData "a b", .templateData "c d"]
          [("trans_vars", .dict [(.const "n", .name "m" "load")]),
           ("count_var", .const "n")])], []) :=
  ⟨rfl, rfl, rfl⟩

/-- Claim C8: the url tag's argument-value parser consumes a current
STRING token as one whole constant without entering the host expression
parser, so adjacent string-literal positional arguments stay distinct —
`url 'v' 'a' 'b'` yields the three arguments `v`, `a`, `b` — whereas the
host expression grammar would concatenate `'a' 'b'` into the single
constant `ab`. -/
theorem url_adjacent_strings_distinct :
    (∀ (s : String) (rest : List Tok),
      djangoUrl_parse_expression (Tok.string s :: rest) = .ok (.const s, rest)) ∧
    djangoUrl_parse
        [Tok.name "url", Tok.string "v", Tok.string "a", Tok.string "b", Tok.blockEnd]
      = .ok (.output [.extCall "_url_reverse"
          [.const "v", .const "a", .const "b"] []], [Tok.blockEnd]) ∧
    host_parse_expression [Tok.string "a", Tok.string "b"] = .ok (.const "ab", []) :=
  ⟨fun _ _ => rfl, rfl, rfl⟩

/-- Claim C9: finalizer composition satisfies
`compose f g v = f (g v)`, and installing the localization transforms
wraps each new transform around the chain built so far: a pre-existing
environment finalizer runs innermost, then the localtime transform
(registered first), then the localize transform (registered last); with
no pre-existing finalizer the first transform starts the chain. -/
theorem finalize_compose_order :
    ∀ (α : Type) (t l h : α → α) (v : α),
      compose t l v = t (l v) ∧
      applyFinal (djangoL10n_install true true t l (some h)) v = l (t (h v)) ∧
      applyFinal (djangoL10n_install true true t l none) v = l (t v) ∧
      applyFinal (djangoL10n_install true false t l (some h)) v = t (h v) ∧
      applyFinal (djangoL10n_install false false t l (some h)) v = h v :=
  fun _ _ _ _ _ => ⟨rfl, rfl, rfl, rfl, rfl⟩

/-- Runtime stub over natural-number binding values used to exhibit the
raw-count behaviour of the blocktrans runtime call: the finalizer adds
one, plural selection compares the count with one, and substitution
renders the binding map after the translated text. -/
def rtNat : I18nRuntime Nat :=
  { finalize := some (fun v => v + 1),
    ugettext := fun s => s,
    pgettext := fun _ s => s,
    ungettext := fun s p c => if c = 1 then s else p,
    npgettext := fun _ s p c => if c = 1 then s else p,
    fmt := fun s m =>
      s ++ String.join (m.map (fun kv => "|" ++ kv.1 ++ "=" ++ toString kv.2)) }

/-- Claim C10: in the blocktrans runtime call with a finalizer installed,
the substitution map is the finalized binding map, while the count passed
to the plural (and plural-with-context) translation lookup is the raw
binding value from the unfinalized map; concretely, with a finalizer
adding one, a count binding of 1 still selects the singular text while
the substituted map already shows 2 — and finalizing the count would have
flipped the selection. -/
theorem make_blocktrans_raw_count :
    (∀ (V : Type) (rt : I18nRuntime V) (f : V → V) (s p cx c : String) (cv : V)
        (m : List (String × V)),
      rt.finalize = some f → pyDictGet m c = some cv →
      make_blocktrans rt s (some p) none m (some c)
        = some (rt.fmt (rt.ungettext s p cv) (m.map fun kv => (kv.1, f kv.2))) ∧
      make_blocktrans rt s (some p) (some cx) m (some c)
        = some (rt.fmt (rt.npgettext cx s p cv) (m.map fun kv => (kv.1, f kv.2)))) ∧
    make_blocktrans rtNat "one" (some "many") none [("n", 1)] (some "n")
      = some "one|n=2" ∧
    rtNat.ungettext "one" "many" 2 ≠ rtNat.ungettext "one" "many" 1 := by
  refine ⟨?_, rfl, by decide⟩
  intro V rt f s p cx c cv m h1 h2
  constructor
  · simp [make_blocktrans, h1, h2]
  · simp [make_blocktrans, h1, h2]

/-- Claim C10 (witness): the raw-count equation at the concrete runtime
stub and binding map. -/
theorem make_blocktrans_raw_count_witness :
    make_blocktrans rtNat "one" (some "many") none [("n", 1)] (some "n")
      = some (rtNat.fmt (rtNat.ungettext "one" "many" 1)
          ([("n", 1)].map fun kv => (kv.1, kv.2 + 1))) :=
  (make_blocktrans_raw_count.1 Nat rtNat (fun v => v + 1) "one" "many" "cx" "n" 1
    [("n", 1)] rfl rfl).1
